import Mathlib

/- Verification of the Smart-Dustbin GCP pipeline: the classification-and-
routing HTTP handler (cloud_backend/main.py), the device-simulation driver
(simulation/simulation.py), and the module-level initialization of the
handler module. External collaborators (the Gemini classifier, the
Firestore append, the network) are modelled as explicit parameters; the
control flow of the Python sources is embedded statement by statement. -/

namespace SmartDustbin

/-- Raw bytes of an uploaded file, abstracted as a string. -/
abbrev Bytes := String

/-- An incoming HTTP request: its method and its multipart file fields,
keyed by field name (`request.files` in the handler), each carrying the
bytes that `file.read()` would return. -/
structure Request where
  method : String
  files : List (String × Bytes)
deriving Repr, DecidableEq

/-- Value stored in one field of a persisted Firestore document: either the
`firestore.SERVER_TIMESTAMP` sentinel or a string. -/
inductive FieldVal
  | serverTimestamp
  | str (s : String)
deriving Repr, DecidableEq

/-- A persisted document, as written by the Python dict literal passed to
`db.collection('waste_logs').add`: an ordered association list from field
name to value. -/
abbrev Record := List (String × FieldVal)

/-- Response body: the empty body of the preflight branch, or a JSON object
rendered as an ordered association list from key to string value. -/
inductive Body
  | empty
  | json (fields : List (String × String))
deriving Repr, DecidableEq

/-- Everything one handler invocation produces: the HTTP response parts and
the externally observable side effects (how many times the classifier was
called, how many times a persistence append was attempted, and the records
actually appended to the log). -/
structure HResult where
  body : Body
  status : Nat
  headers : List (String × String)
  classifierCalls : Nat
  persistCalls : Nat
  appendedRecords : List Record
deriving Repr, DecidableEq

/-- The fixed recyclable set, main.py line 58. -/
def recyclable_items : List String :=
  ["cardboard", "paper", "metal", "plastic", "brown-glass", "white-glass",
   "green-glass", "clothes", "shoes"]

/-- Routing Policy: the bin chosen for a category string, main.py lines
60-63. Being a total Lean function, it is defined on every string and can
never raise. -/
def bin_type_of (detected_class : String) : String :=
  if detected_class ∈ recyclable_items then "Recycle" else "General"

/-- Headers of the preflight (OPTIONS) response, main.py lines 26-31. -/
def preflightHeaders : List (String × String) :=
  [("Access-Control-Allow-Origin", "*"),
   ("Access-Control-Allow-Methods", "POST"),
   ("Access-Control-Allow-Headers", "Content-Type"),
   ("Access-Control-Max-Age", "3600")]

/-- The single CORS header attached to every non-preflight response. -/
def corsHeaders : List (String × String) :=
  [("Access-Control-Allow-Origin", "*")]

/-- Model of Python str.lower: lowercase every character (the labels in
play are ASCII, where Char.toLower agrees with Python). -/
def pyLower (s : String) : String := ⟨s.data.map Char.toLower⟩

/-- Model of Python str.upper: uppercase every character. -/
def pyUpper (s : String) : String := ⟨s.data.map Char.toUpper⟩

/-- Model of Python str.strip with no argument: drop leading and trailing
whitespace characters. -/
def pyStrip (s : String) : String :=
  ⟨((s.data.dropWhile Char.isWhitespace).reverse.dropWhile
      Char.isWhitespace).reverse⟩

/-- The document written to the waste_logs collection, main.py lines 67-72,
with its field names exactly as the Python dict literal spells them. -/
def wasteLogRecord (detected_class bin_type : String) : Record :=
  [("timestamp", .serverTimestamp),
   ("class", .str detected_class),
   ("bin", .str bin_type),
   ("device_id", .str "feather-s3-simulation")]

/-- Shallow embedding of process_waste, main.py lines 18-84. The Classifier
capability is the parameter `classify` (image bytes to the raw label text,
or the stringified exception it raised); the Persistence Log append is the
parameter `persist` (record to unit, or the stringified exception). The
try/except around the normal path turns either error into the 500 branch. -/
def process_waste (classify : Bytes → Except String String)
    (persist : Record → Except String Unit) (request : Request) : HResult :=
  if request.method = "OPTIONS" then
    { body := .empty, status := 204, headers := preflightHeaders,
      classifierCalls := 0, persistCalls := 0, appendedRecords := [] }
  else
    match request.files.lookup "file" with
    | none =>
      { body := .json [("error", "No file uploaded")], status := 400,
        headers := corsHeaders,
        classifierCalls := 0, persistCalls := 0, appendedRecords := [] }
    | some content =>
      match classify content with
      | .error e =>
        { body := .json [("error", e)], status := 500, headers := corsHeaders,
          classifierCalls := 1, persistCalls := 0, appendedRecords := [] }
      | .ok rawLabel =>
        match persist (wasteLogRecord (pyLower (pyStrip rawLabel))
            (bin_type_of (pyLower (pyStrip rawLabel)))) with
        | .error e =>
          { body := .json [("error", e)], status := 500,
            headers := corsHeaders,
            classifierCalls := 1, persistCalls := 1, appendedRecords := [] }
        | .ok _ =>
          { body := .json [("status", "success"),
                           ("class", pyLower (pyStrip rawLabel)),
                           ("bin", bin_type_of (pyLower (pyStrip rawLabel))),
                           ("command",
                            "OPEN_" ++ pyUpper (bin_type_of (pyLower (pyStrip rawLabel))))],
            status := 200, headers := corsHeaders,
            classifierCalls := 1, persistCalls := 1,
            appendedRecords := [wasteLogRecord (pyLower (pyStrip rawLabel))
              (bin_type_of (pyLower (pyStrip rawLabel)))] }

/-- Concrete fixture: a POST request carrying one file field. -/
def okRequest : Request := { method := "POST", files := [("file", "jpegbytes")] }

/-- Concrete fixture: a POST request with no file field. -/
def bareRequest : Request := { method := "POST", files := [] }

/-- Concrete fixture: a classifier that always answers "plastic". -/
def classifyPlastic : Bytes → Except String String := fun _ => .ok "plastic"

/-- Concrete fixture: a persistence append that always succeeds. -/
def persistOk : Record → Except String Unit := fun _ => .ok ()

/-- Concrete fixture: a classifier that always raises. -/
def classifyBoom : Bytes → Except String String := fun _ => .error "boom"

/-- Lexicographic comparison of character lists by code point, the order
Python uses to compare strings. -/
def lexLe : List Char → List Char → Bool
  | [], _ => true
  | _ :: _, [] => false
  | a :: as, b :: bs =>
    if a < b then true else if b < a then false else lexLe as bs

/-- Model of Python string comparison s <= t, used by list.sort on the
category names. -/
def pyStrLe (s t : String) : Bool := lexLe s.data t.data

/-- Totality of the sort comparison: any two strings compare. -/
instance : IsTotal String (fun a b => pyStrLe a b = true) where
  total := by
    have h : ∀ xs ys : List Char, lexLe xs ys = true ∨ lexLe ys xs = true := by
      intro xs
      induction xs with
      | nil => intro ys; left; rfl
      | cons a as ih =>
        intro ys
        cases ys with
        | nil => right; rfl
        | cons b bs =>
          rcases lt_trichotomy a b with hab | hab | hab
          · left
            simp [lexLe, hab]
          · subst hab
            rcases ih bs with h1 | h1
            · left
              simp [lexLe, lt_irrefl, h1]
            · right
              simp [lexLe, lt_irrefl, h1]
          · right
            simp [lexLe, hab]
    intro a b
    exact h a.data b.data

/-- Transitivity of the sort comparison. -/
instance : IsTrans String (fun a b => pyStrLe a b = true) where
  trans := by
    have h : ∀ xs ys zs : List Char, lexLe xs ys = true → lexLe ys zs = true →
        lexLe xs zs = true := by
      intro xs
      induction xs with
      | nil => intro ys zs _ _; rfl
      | cons a as ih =>
        intro ys zs hxy hyz
        cases ys with
        | nil => simp [lexLe] at hxy
        | cons b bs =>
          cases zs with
          | nil => simp [lexLe] at hyz
          | cons c cs =>
            simp only [lexLe] at hxy hyz ⊢
            rcases lt_trichotomy a b with hab | hab | hab
            · rcases lt_trichotomy b c with hbc | hbc | hbc
              · simp [lt_trans hab hbc]
              · subst hbc
                simp [hab]
              · simp [asymm hbc, hbc] at hyz
            · subst hab
              simp only [lt_irrefl, if_false] at hxy
              rcases lt_trichotomy a c with hac | hac | hac
              · simp [hac]
              · subst hac
                simp only [lt_irrefl, if_false] at hyz ⊢
                exact ih bs cs hxy hyz
              · simp [asymm hac, hac] at hyz
            · simp [asymm hab, hab] at hxy
    intro a b c hab hbc
    exact h a.data b.data c.data hab hbc

/-- Model of list.sort in simulation.py line 21: a stable sort of the
category names under Python string comparison. -/
def sortCategories (listing : List String) : List String :=
  List.insertionSort (fun a b => pyStrLe a b = true) listing

/-- Outcome of one upload cycle as the simulator observes it after posting
the file: HTTP 200 with the parsed class and command fields, a non-200
response with its text, or an exception raised during the cycle. -/
inductive CycleOutcome
  | httpOk (cls command : String)
  | httpErr (text : String)
  | raised (msg : String)
deriving Repr, DecidableEq

/-- Observable events of a simulation run, in order: the skip diagnostic of
an empty category, an upload of one file of a category, the correctness
diagnostics of the 200 branch, the error prints, and the fixed delay
(time.sleep with its argument in seconds). -/
inductive SimEvent
  | skip (category : String)
  | upload (category : String) (file : String)
  | correct (category : String)
  | incorrect (category : String)
  | httpError (text : String)
  | exceptionLogged (category : String) (msg : String)
  | sleep (seconds : Nat)
deriving Repr, DecidableEq

/-- Events of the body of one upload cycle after the file choice, as a
function of the outcome of the network interaction: the upload, the
diagnostic of the 200 branch (Python's substring containment test of the
ground-truth category inside the predicted class) or the error print, and
the final 2-second delay shared by all three paths (the except branch
sleeps as well). -/
def cycleEvents (category file : String) (o : CycleOutcome) : List SimEvent :=
  match o with
  | .httpOk cls _command =>
    [.upload category file,
     if category.data <:+: cls.data then .correct category
     else .incorrect category,
     .sleep 2]
  | .httpErr text =>
    [.upload category file, .httpError text, .sleep 2]
  | .raised msg =>
    [.upload category file, .exceptionLogged category msg, .sleep 2]

/-- One iteration of the category loop of start_simulation, simulation.py
lines 23-60. `filesOf` models listing the files of a category directory;
`pick` models random.choice by an arbitrary index reduced modulo the length
of the nonempty file list; `outcome` models the network interaction. An
empty category prints the skip diagnostic and continues, reaching neither
the upload nor the delay. -/
def runCategory (filesOf : String → List String) (pick : String → Nat)
    (outcome : String → String → CycleOutcome) (category : String) :
    List SimEvent :=
  match filesOf category with
  | [] => [.skip category]
  | f :: fs =>
    cycleEvents category ((f :: fs).getD (pick category % (f :: fs).length) f)
      (outcome category ((f :: fs).getD (pick category % (f :: fs).length) f))

/-- Shallow embedding of start_simulation, simulation.py lines 16-60: list
the dataset's category directories (`listing`, in directory order), sort
them, and run one cycle per category in that order. -/
def start_simulation (listing : List String)
    (filesOf : String → List String) (pick : String → Nat)
    (outcome : String → String → CycleOutcome) : List SimEvent :=
  (sortCategories listing).flatMap (runCategory filesOf pick outcome)

/-- Categories visited by a run, one entry per skip diagnostic or upload. -/
def visitedCategories (evs : List SimEvent) : List String :=
  evs.filterMap fun e =>
    match e with
    | .skip c => some c
    | .upload c _ => some c
    | _ => none

/-- Files uploaded for one category during a run. -/
def uploadsFor (category : String) (evs : List SimEvent) : List String :=
  evs.filterMap fun e =>
    match e with
    | .upload c f => if c = category then some f else none
    | _ => none

/-- Concrete fixture: a dataset in which every category is empty. -/
def emptyFilesOf : String → List String := fun _ => []

/-- Concrete fixture: a dataset with one file per category. -/
def oneFileOf : String → List String := fun c => [c ++ ".jpg"]

/-- Concrete fixture: random.choice always takes the first file. -/
def pickFirst : String → Nat := fun _ => 0

/-- Concrete fixture: every upload answers 200 with an empty class. -/
def outcomeOk : String → String → CycleOutcome := fun _ _ => .httpOk "" ""

/-- A Python runtime error relevant at module scope: referencing a name
that is not bound. -/
inductive PyError
  | nameError (name : String)
deriving Repr, DecidableEq

/-- One top-level statement of a Python module, abstracted to the names it
reads and the names it binds: an import (always binds its targets), an
assignment (reads its right-hand side's free names, then binds its target),
a try/except-Exception block (any error inside is caught and printed, so
evaluation always continues; its bindings take effect only on success), and
a decorated function definition (reads the decorator's name, binds the
function's name). -/
inductive Stmt
  | importBinding (binds : List String)
  | assign (target : String) (reads : List String)
  | tryInitBlock (reads : List String) (binds : List String)
  | defFunction (target : String) (reads : List String)
deriving Repr, DecidableEq

/-- First name of `reads` not bound in `env` — the name whose lookup raises
NameError. -/
def firstUnbound (env reads : List String) : Option String :=
  reads.find? fun n => !env.contains n

/-- Sequential evaluation of module top-level statements, tracking the set
of bound names; an uncaught NameError aborts the module (so later
statements, including the handler definition, never execute). -/
def runStmts (env : List String) : List Stmt → Except PyError (List String)
  | [] => .ok env
  | .importBinding binds :: rest => runStmts (env ++ binds) rest
  | .assign target reads :: rest =>
    match firstUnbound env reads with
    | some n => .error (.nameError n)
    | none => runStmts (env ++ [target]) rest
  | .tryInitBlock reads binds :: rest =>
    match firstUnbound env reads with
    | some _ => runStmts env rest
    | none => runStmts (env ++ binds) rest
  | .defFunction target reads :: rest =>
    match firstUnbound env reads with
    | some n => .error (.nameError n)
    | none => runStmts (env ++ [target]) rest

/-- The top level of cloud_backend/main.py, statement by statement: the
four import lines (lines 1-4, binding functions_framework, firestore,
vertexai, GenerativeModel and Part — none of them binds os), the two
assignments reading os (lines 6-7), the try/except around client and model
construction (lines 9-15), and the decorated definition of process_waste
(lines 17-18). -/
def mainModule : List Stmt :=
  [.importBinding ["functions_framework"],
   .importBinding ["firestore"],
   .importBinding ["vertexai"],
   .importBinding ["GenerativeModel", "Part"],
   .assign "PROJECT_ID" ["os"],
   .assign "LOCATION" ["os"],
   .tryInitBlock ["firestore", "vertexai", "PROJECT_ID", "LOCATION",
     "GenerativeModel"] ["db", "model"],
   .defFunction "process_waste" ["functions_framework"]]

/-- True when module evaluation completed and bound the handler's name, the
precondition for any request to be served. -/
def handlerRegistered : Bool :=
  match runStmts [] mainModule with
  | .ok env => env.contains "process_waste"
  | .error _ => false

/-- Branch characterization: a fully successful run of the handler. -/
theorem process_waste_success (classify : Bytes → Except String String)
    (persist : Record → Except String Unit) (request : Request)
    (content : Bytes) (rawLabel : String)
    (hm : request.method ≠ "OPTIONS")
    (hf : request.files.lookup "file" = some content)
    (hc : classify content = .ok rawLabel)
    (hp : persist (wasteLogRecord (pyLower (pyStrip rawLabel))
            (bin_type_of (pyLower (pyStrip rawLabel)))) = .ok ()) :
    process_waste classify persist request =
      { body := .json [("status", "success"),
                       ("class", pyLower (pyStrip rawLabel)),
                       ("bin", bin_type_of (pyLower (pyStrip rawLabel))),
                       ("command",
                        "OPEN_" ++ pyUpper (bin_type_of (pyLower (pyStrip rawLabel))))],
        status := 200, headers := corsHeaders,
        classifierCalls := 1, persistCalls := 1,
        appendedRecords := [wasteLogRecord (pyLower (pyStrip rawLabel))
          (bin_type_of (pyLower (pyStrip rawLabel)))] } := by
  unfold process_waste
  simp only [if_neg hm, hf, hc, hp]

/-- Branch characterization: the classifier call raises. -/
theorem process_waste_classify_error (classify : Bytes → Except String String)
    (persist : Record → Except String Unit) (request : Request)
    (content : Bytes) (e : String)
    (hm : request.method ≠ "OPTIONS")
    (hf : request.files.lookup "file" = some content)
    (hc : classify content = .error e) :
    process_waste classify persist request =
      { body := .json [("error", e)], status := 500, headers := corsHeaders,
        classifierCalls := 1, persistCalls := 0, appendedRecords := [] } := by
  unfold process_waste
  simp only [if_neg hm, hf, hc]

/-- Branch characterization: classification succeeded, the append raised. -/
theorem process_waste_persist_error (classify : Bytes → Except String String)
    (persist : Record → Except String Unit) (request : Request)
    (content : Bytes) (rawLabel e : String)
    (hm : request.method ≠ "OPTIONS")
    (hf : request.files.lookup "file" = some content)
    (hc : classify content = .ok rawLabel)
    (hp : persist (wasteLogRecord (pyLower (pyStrip rawLabel))
            (bin_type_of (pyLower (pyStrip rawLabel)))) = .error e) :
    process_waste classify persist request =
      { body := .json [("error", e)], status := 500, headers := corsHeaders,
        classifierCalls := 1, persistCalls := 1, appendedRecords := [] } := by
  unfold process_waste
  simp only [if_neg hm, hf, hc, hp]

/-- C1: the Routing Policy is total on strings: every member of the fixed
nine-element recyclable set maps to "Recycle", every other string maps to
"General", and the result is always one of the two bins (the function is
total, so evaluation cannot raise). -/
theorem routing_policy_total (s : String) :
    (s ∈ recyclable_items → bin_type_of s = "Recycle") ∧
    (s ∉ recyclable_items → bin_type_of s = "General") ∧
    (bin_type_of s = "Recycle" ∨ bin_type_of s = "General") := by
  unfold bin_type_of
  by_cases h : s ∈ recyclable_items <;> simp [h]

/-- C1 witness: the policy evaluated on a recyclable category, on the empty
string, and on a non-recyclable enumerated category. -/
theorem routing_policy_total_witness :
    bin_type_of "plastic" = "Recycle" ∧ bin_type_of "" = "General" ∧
    bin_type_of "battery" = "General" :=
  ⟨(routing_policy_total "plastic").1 (by decide),
   (routing_policy_total "").2.1 (by decide),
   (routing_policy_total "battery").2.1 (by decide)⟩

/-- C2: every record the handler appends has its bin field equal to the
Routing Policy applied to its class field; no reachable execution creates
an inconsistent record. -/
theorem record_bin_consistent (classify : Bytes → Except String String)
    (persist : Record → Except String Unit) (request : Request) (r : Record)
    (hr : r ∈ (process_waste classify persist request).appendedRecords) :
    ∃ c, r.lookup "class" = some (.str c) ∧
      r.lookup "bin" = some (.str (bin_type_of c)) := by
  unfold process_waste at hr
  split at hr
  · simp at hr
  · split at hr
    · simp at hr
    · split at hr
      · simp at hr
      · split at hr
        · simp at hr
        · rename_i rawLabel hcl hs u hp
          simp only [List.mem_singleton] at hr
          subst hr
          refine ⟨pyLower (pyStrip rawLabel), ?_, ?_⟩ <;>
            simp [wasteLogRecord, List.lookup]

/-- C2 witness: the invariant evaluated on a concrete successful request. -/
theorem record_bin_consistent_witness :
    ∃ c, (wasteLogRecord (pyLower (pyStrip "plastic"))
            (bin_type_of (pyLower (pyStrip "plastic")))).lookup "class" =
          some (.str c) ∧
      (wasteLogRecord (pyLower (pyStrip "plastic"))
          (bin_type_of (pyLower (pyStrip "plastic")))).lookup "bin" =
        some (.str (bin_type_of c)) :=
  record_bin_consistent classifyPlastic persistOk okRequest
    (wasteLogRecord (pyLower (pyStrip "plastic"))
      (bin_type_of (pyLower (pyStrip "plastic"))))
    (by rw [process_waste_success classifyPlastic persistOk okRequest
        "jpegbytes" "plastic" (by decide) (by decide) rfl rfl]
        exact List.mem_singleton.mpr rfl)

/-- C3: a non-preflight request without a file field yields status 400 with
body error "No file uploaded" and the CORS header, and neither the
classifier nor the persistence log is invoked. -/
theorem missing_file_400 (classify : Bytes → Except String String)
    (persist : Record → Except String Unit) (request : Request)
    (hm : request.method ≠ "OPTIONS")
    (hf : request.files.lookup "file" = none) :
    process_waste classify persist request =
      { body := .json [("error", "No file uploaded")], status := 400,
        headers := corsHeaders,
        classifierCalls := 0, persistCalls := 0, appendedRecords := [] } := by
  unfold process_waste
  rw [if_neg hm, hf]

/-- C3 witness: the missing-file branch on a concrete request. -/
theorem missing_file_400_witness :
    process_waste classifyPlastic persistOk bareRequest =
      { body := .json [("error", "No file uploaded")], status := 400,
        headers := corsHeaders,
        classifierCalls := 0, persistCalls := 0, appendedRecords := [] } :=
  missing_file_400 classifyPlastic persistOk bareRequest (by decide) (by decide)

/-- C4: whatever raw string the classifier returns, the handler normalizes
it by trimming and lowercasing, and both the persisted class field with its
routing decision and the success response are computed from the normalized
value, never from the raw value. -/
theorem handler_normalizes (classify : Bytes → Except String String)
    (persist : Record → Except String Unit) (request : Request)
    (content : Bytes) (raw : String)
    (hm : request.method ≠ "OPTIONS")
    (hf : request.files.lookup "file" = some content)
    (hc : classify content = .ok raw) :
    (∀ r ∈ (process_waste classify persist request).appendedRecords,
        r = wasteLogRecord (pyLower (pyStrip raw)) (bin_type_of (pyLower (pyStrip raw)))) ∧
    ((process_waste classify persist request).status = 200 →
      (process_waste classify persist request).body =
        .json [("status", "success"),
               ("class", pyLower (pyStrip raw)),
               ("bin", bin_type_of (pyLower (pyStrip raw))),
               ("command", "OPEN_" ++ pyUpper (bin_type_of (pyLower (pyStrip raw))))]) := by
  unfold process_waste
  rw [if_neg hm, hf]
  simp only [hc]
  cases hp : persist (wasteLogRecord (pyLower (pyStrip raw)) (bin_type_of (pyLower (pyStrip raw)))) with
  | error e => simp
  | ok u => simp

/-- C4 witness: a classifier answer with mixed case and whitespace is
normalized to "plastic" before persisting and routing. -/
theorem handler_normalizes_witness :
    (∀ r ∈ (process_waste (fun _ => .ok " Plastic \n") persistOk
        okRequest).appendedRecords,
      r = wasteLogRecord (pyLower (pyStrip " Plastic \n"))
            (bin_type_of (pyLower (pyStrip " Plastic \n")))) ∧
    ((process_waste (fun _ => .ok " Plastic \n") persistOk okRequest).status
        = 200 →
      (process_waste (fun _ => .ok " Plastic \n") persistOk okRequest).body =
        .json [("status", "success"),
               ("class", pyLower (pyStrip " Plastic \n")),
               ("bin", bin_type_of (pyLower (pyStrip " Plastic \n"))),
               ("command",
                "OPEN_" ++ pyUpper (bin_type_of (pyLower (pyStrip " Plastic \n"))))]) :=
  handler_normalizes (fun _ => .ok " Plastic \n") persistOk okRequest
    "jpegbytes" " Plastic \n" (by decide) (by decide) rfl

/-- C5: every successful request returns status 200, a JSON body with
status "success", the normalized class, a bin that is "Recycle" or
"General", the command "OPEN_" followed by the uppercased bin (hence
exactly "OPEN_RECYCLE" or "OPEN_GENERAL"), and the CORS header. -/
theorem success_response (classify : Bytes → Except String String)
    (persist : Record → Except String Unit) (request : Request)
    (h : (process_waste classify persist request).status = 200) :
    ∃ nc,
      (process_waste classify persist request).body =
        .json [("status", "success"), ("class", nc),
               ("bin", bin_type_of nc),
               ("command", "OPEN_" ++ pyUpper (bin_type_of nc))] ∧
      (bin_type_of nc = "Recycle" ∨ bin_type_of nc = "General") ∧
      ("OPEN_" ++ pyUpper (bin_type_of nc) = "OPEN_RECYCLE" ∨
       "OPEN_" ++ pyUpper (bin_type_of nc) = "OPEN_GENERAL") ∧
      (∃ content rawLabel, request.files.lookup "file" = some content ∧
        classify content = .ok rawLabel ∧ nc = pyLower (pyStrip rawLabel)) ∧
      (process_waste classify persist request).headers = corsHeaders := by
  unfold process_waste at h
  split at h
  · simp at h
  · rename_i hm
    split at h
    · simp at h
    · rename_i content hf
      split at h
      · simp at h
      · rename_i rawLabel hcl
        split at h
        · simp at h
        · rename_i u hp
          rw [process_waste_success classify persist request content rawLabel
            hm hf hcl (by cases u; exact hp)]
          refine ⟨pyLower (pyStrip rawLabel), rfl, ?_, ?_,
            ⟨content, rawLabel, hf, hcl, rfl⟩, rfl⟩
          · unfold bin_type_of
            by_cases hmem : pyLower (pyStrip rawLabel) ∈ recyclable_items <;>
              simp [hmem]
          · unfold bin_type_of
            by_cases hmem : pyLower (pyStrip rawLabel) ∈ recyclable_items <;>
              simp only [hmem, if_true, if_false]
            · left
              decide
            · right
              decide

/-- C5 witness: the success contract on a concrete request whose classifier
answers "plastic". -/
theorem success_response_witness :
    ∃ nc,
      (process_waste classifyPlastic persistOk okRequest).body =
        .json [("status", "success"), ("class", nc),
               ("bin", bin_type_of nc),
               ("command", "OPEN_" ++ pyUpper (bin_type_of nc))] ∧
      (bin_type_of nc = "Recycle" ∨ bin_type_of nc = "General") ∧
      ("OPEN_" ++ pyUpper (bin_type_of nc) = "OPEN_RECYCLE" ∨
       "OPEN_" ++ pyUpper (bin_type_of nc) = "OPEN_GENERAL") ∧
      (∃ content rawLabel, okRequest.files.lookup "file" = some content ∧
        classifyPlastic content = .ok rawLabel ∧
        nc = pyLower (pyStrip rawLabel)) ∧
      (process_waste classifyPlastic persistOk okRequest).headers =
        corsHeaders :=
  success_response classifyPlastic persistOk okRequest (by decide)

/-- C6: a classifier or persistence exception yields status 500 with the
raw error text and no surviving record (no retry, no rollback: the single
attempt is simply reported as failed); and on every request the classifier
is called at most once and at most one record is appended. -/
theorem downstream_failure (classify : Bytes → Except String String)
    (persist : Record → Except String Unit) (request : Request) :
    ((process_waste classify persist request).classifierCalls ≤ 1 ∧
     (process_waste classify persist request).persistCalls ≤ 1 ∧
     (process_waste classify persist request).appendedRecords.length ≤ 1) ∧
    (∀ content e, request.method ≠ "OPTIONS" →
      request.files.lookup "file" = some content →
      (classify content = .error e ∨
       (∃ rawLabel, classify content = .ok rawLabel ∧
         persist (wasteLogRecord (pyLower (pyStrip rawLabel))
           (bin_type_of (pyLower (pyStrip rawLabel)))) = .error e)) →
      (process_waste classify persist request).status = 500 ∧
      (process_waste classify persist request).body = .json [("error", e)] ∧
      (process_waste classify persist request).classifierCalls = 1 ∧
      (process_waste classify persist request).appendedRecords = []) := by
  constructor
  · unfold process_waste
    split
    · simp
    · split
      · simp
      · split
        · simp
        · split <;> simp
  · intro content e hm hf herr
    rcases herr with hce | ⟨rawLabel, hcl, hp⟩
    · rw [process_waste_classify_error classify persist request content e
        hm hf hce]
      simp
    · rw [process_waste_persist_error classify persist request content
        rawLabel e hm hf hcl hp]
      simp

/-- C6 witness: the failure contract evaluated with a classifier that
raises "boom". -/
theorem downstream_failure_witness :
    (process_waste classifyBoom persistOk okRequest).status = 500 ∧
    (process_waste classifyBoom persistOk okRequest).body =
      .json [("error", "boom")] ∧
    (process_waste classifyBoom persistOk okRequest).classifierCalls = 1 ∧
    (process_waste classifyBoom persistOk okRequest).appendedRecords = [] :=
  (downstream_failure classifyBoom persistOk okRequest).2 "jpegbytes" "boom"
    (by decide) (by decide) (Or.inl rfl)

/-- C7 counterexample: on a concrete successful request the handler appends
a record whose field names are timestamp, class, bin, device_id — not the
deviceId the claim states for the fourth field. -/
theorem record_field_names_counterexample :
    (process_waste classifyPlastic persistOk okRequest).appendedRecords.map
        (List.map Prod.fst) =
      [["timestamp", "class", "bin", "device_id"]] ∧
    (process_waste classifyPlastic persistOk okRequest).appendedRecords.map
        (List.map Prod.fst) ≠
      [["timestamp", "class", "bin", "deviceId"]] := by
  rw [process_waste_success classifyPlastic persistOk okRequest
    "jpegbytes" "plastic" (by decide) (by decide) rfl rfl]
  constructor
  · rfl
  · decide

/-- C7 amended: every record the handler persists has exactly the field
names timestamp, class, bin, device_id, in that order. -/
theorem record_field_names (classify : Bytes → Except String String)
    (persist : Record → Except String Unit) (request : Request) (r : Record)
    (hr : r ∈ (process_waste classify persist request).appendedRecords) :
    r.map Prod.fst = ["timestamp", "class", "bin", "device_id"] := by
  unfold process_waste at hr
  split at hr
  · simp at hr
  · split at hr
    · simp at hr
    · split at hr
      · simp at hr
      · split at hr
        · simp at hr
        · simp only [List.mem_singleton] at hr
          subst hr
          rfl

/-- C7 amended witness: the field names of the record appended on a
concrete successful request. -/
theorem record_field_names_witness :
    (wasteLogRecord (pyLower (pyStrip "plastic"))
        (bin_type_of (pyLower (pyStrip "plastic")))).map Prod.fst =
      ["timestamp", "class", "bin", "device_id"] :=
  record_field_names classifyPlastic persistOk okRequest
    (wasteLogRecord (pyLower (pyStrip "plastic"))
      (bin_type_of (pyLower (pyStrip "plastic"))))
    (by rw [process_waste_success classifyPlastic persistOk okRequest
        "jpegbytes" "plastic" (by decide) (by decide) rfl rfl]
        exact List.mem_singleton.mpr rfl)

/-- Splitting visited categories over concatenated event lists. -/
theorem visitedCategories_append (evs evt : List SimEvent) :
    visitedCategories (evs ++ evt) =
      visitedCategories evs ++ visitedCategories evt :=
  List.filterMap_append _ _ _

/-- The cycle body visits exactly its own category. -/
theorem visitedCategories_cycleEvents (c file : String) (o : CycleOutcome) :
    visitedCategories (cycleEvents c file o) = [c] := by
  cases o with
  | httpOk cls command =>
    unfold cycleEvents visitedCategories
    by_cases h : c.data <:+: cls.data <;> simp [h, List.filterMap_cons]
  | httpErr text => rfl
  | raised msg => rfl

/-- Every loop iteration visits exactly its own category, whether it skips
or uploads. -/
theorem visitedCategories_runCategory (filesOf : String → List String)
    (pick : String → Nat) (outcome : String → String → CycleOutcome)
    (c : String) :
    visitedCategories (runCategory filesOf pick outcome c) = [c] := by
  unfold runCategory
  cases filesOf c with
  | nil => rfl
  | cons f fs => exact visitedCategories_cycleEvents c _ _

/-- The loop over a list of categories visits exactly that list in order. -/
theorem visitedCategories_loop (filesOf : String → List String)
    (pick : String → Nat) (outcome : String → String → CycleOutcome) :
    ∀ l : List String,
      visitedCategories (l.flatMap (runCategory filesOf pick outcome)) = l := by
  intro l
  induction l with
  | nil => rfl
  | cons c t ih =>
    rw [List.flatMap_cons, visitedCategories_append,
      visitedCategories_runCategory, ih]
    rfl

/-- Splitting per-category uploads over concatenated event lists. -/
theorem uploadsFor_append (c : String) (evs evt : List SimEvent) :
    uploadsFor c (evs ++ evt) = uploadsFor c evs ++ uploadsFor c evt :=
  List.filterMap_append _ _ _

/-- The cycle body of a different category contributes no uploads for c. -/
theorem uploadsFor_cycleEvents_ne (c d file : String) (o : CycleOutcome)
    (h : d ≠ c) : uploadsFor c (cycleEvents d file o) = [] := by
  cases o with
  | httpOk cls command =>
    unfold cycleEvents uploadsFor
    by_cases hin : d.data <:+: cls.data <;> simp [hin, List.filterMap_cons, h]
  | httpErr text => simp [cycleEvents, uploadsFor, List.filterMap_cons, h]
  | raised msg => simp [cycleEvents, uploadsFor, List.filterMap_cons, h]

/-- The cycle body of category c uploads exactly its file. -/
theorem uploadsFor_cycleEvents_self (c file : String) (o : CycleOutcome) :
    uploadsFor c (cycleEvents c file o) = [file] := by
  cases o with
  | httpOk cls command =>
    unfold cycleEvents uploadsFor
    by_cases hin : c.data <:+: cls.data <;> simp [hin, List.filterMap_cons]
  | httpErr text => simp [cycleEvents, uploadsFor, List.filterMap_cons]
  | raised msg => simp [cycleEvents, uploadsFor, List.filterMap_cons]

/-- An iteration on a different category contributes no uploads for c. -/
theorem uploadsFor_runCategory_ne (filesOf : String → List String)
    (pick : String → Nat) (outcome : String → String → CycleOutcome)
    (c d : String) (h : d ≠ c) :
    uploadsFor c (runCategory filesOf pick outcome d) = [] := by
  unfold runCategory
  cases filesOf d with
  | nil => simp [uploadsFor, List.filterMap_cons]
  | cons f fs => exact uploadsFor_cycleEvents_ne c d _ _ h

/-- An iteration on a non-empty category c uploads exactly the chosen
file. -/
theorem uploadsFor_runCategory_self (filesOf : String → List String)
    (pick : String → Nat) (outcome : String → String → CycleOutcome)
    (c : String) (f : String) (fs : List String) (hf : filesOf c = f :: fs) :
    uploadsFor c (runCategory filesOf pick outcome c) =
      [(f :: fs).getD (pick c % (f :: fs).length) f] := by
  unfold runCategory
  rw [hf]
  exact uploadsFor_cycleEvents_self c _ _

/-- The file an iteration chooses is a member of the category's file
list. -/
theorem chosen_file_mem (f : String) (fs : List String) (n : Nat) :
    (f :: fs).getD (n % (f :: fs).length) f ∈ f :: fs := by
  have hlt : n % (f :: fs).length < (f :: fs).length :=
    Nat.mod_lt _ (by simp)
  rw [List.getD_eq_getElem _ _ hlt]
  exact List.getElem_mem hlt

/-- Categories not in the loop list contribute no uploads. -/
theorem uploadsFor_loop_not_mem (filesOf : String → List String)
    (pick : String → Nat) (outcome : String → String → CycleOutcome)
    (c : String) :
    ∀ l : List String, c ∉ l →
      uploadsFor c (l.flatMap (runCategory filesOf pick outcome)) = [] := by
  intro l
  induction l with
  | nil => intro _; rfl
  | cons a t ih =>
    intro h
    rw [List.mem_cons, not_or] at h
    rw [List.flatMap_cons, uploadsFor_append,
      uploadsFor_runCategory_ne filesOf pick outcome c a
        (fun e => h.1 e.symm),
      ih h.2]
    rfl

/-- In a loop over distinct categories, the uploads for c are exactly the
uploads of c's own iteration. -/
theorem uploadsFor_loop (filesOf : String → List String)
    (pick : String → Nat) (outcome : String → String → CycleOutcome)
    (c : String) :
    ∀ l : List String, l.Nodup → c ∈ l →
      uploadsFor c (l.flatMap (runCategory filesOf pick outcome)) =
        uploadsFor c (runCategory filesOf pick outcome c) := by
  intro l
  induction l with
  | nil => intro _ h; cases h
  | cons a t ih =>
    intro hnd hc
    rw [List.flatMap_cons, uploadsFor_append]
    rcases List.mem_cons.mp hc with rfl | hct
    · rw [uploadsFor_loop_not_mem filesOf pick outcome c t
        (List.nodup_cons.mp hnd).1]
      simp
    · have hac : a ≠ c := by
        intro e
        subst e
        exact (List.nodup_cons.mp hnd).1 hct
      rw [uploadsFor_runCategory_ne filesOf pick outcome c a hac,
        ih (List.nodup_cons.mp hnd).2 hct]
      rfl

/-- C8: a simulator run visits each category subdirectory exactly once, in
sorted (lexicographic) order of the names rather than listing order; an
empty category is skipped with a diagnostic while the run continues, and
each non-empty category yields exactly one upload of one file drawn from
that category — for every possible realization of the random choice. -/
theorem simulator_traversal (listing : List String)
    (filesOf : String → List String) (pick : String → Nat)
    (outcome : String → String → CycleOutcome) (hnd : listing.Nodup) :
    visitedCategories (start_simulation listing filesOf pick outcome) =
      sortCategories listing ∧
    List.Pairwise (fun a b => pyStrLe a b = true)
      (visitedCategories (start_simulation listing filesOf pick outcome)) ∧
    (∀ c ∈ listing,
      (visitedCategories
        (start_simulation listing filesOf pick outcome)).count c = 1) ∧
    (∀ c ∈ listing, filesOf c = [] →
      SimEvent.skip c ∈ start_simulation listing filesOf pick outcome ∧
      uploadsFor c (start_simulation listing filesOf pick outcome) = []) ∧
    (∀ c ∈ listing, filesOf c ≠ [] →
      ∃ f, f ∈ filesOf c ∧
        uploadsFor c (start_simulation listing filesOf pick outcome) = [f]) := by
  have hperm : (sortCategories listing).Perm listing :=
    List.perm_insertionSort _ listing
  have hvis : visitedCategories (start_simulation listing filesOf pick outcome)
      = sortCategories listing :=
    visitedCategories_loop filesOf pick outcome (sortCategories listing)
  have hsortnd : (sortCategories listing).Nodup := hperm.symm.nodup hnd
  refine ⟨hvis, ?_, ?_, ?_, ?_⟩
  · rw [hvis]
    exact List.sorted_insertionSort (fun a b => pyStrLe a b = true) listing
  · intro c hc
    rw [hvis]
    exact List.count_eq_one_of_mem hsortnd (hperm.mem_iff.mpr hc)
  · intro c hc hemp
    have hrun : runCategory filesOf pick outcome c = [SimEvent.skip c] := by
      unfold runCategory
      rw [hemp]
    constructor
    · exact List.mem_flatMap.mpr ⟨c, hperm.mem_iff.mpr hc,
        by rw [hrun]; exact List.mem_singleton_self _⟩
    · rw [start_simulation,
        uploadsFor_loop filesOf pick outcome c (sortCategories listing)
          hsortnd (hperm.mem_iff.mpr hc), hrun]
      rfl
  · intro c hc hne
    cases hfc : filesOf c with
    | nil => exact absurd hfc hne
    | cons f fs =>
      refine ⟨(f :: fs).getD (pick c % (f :: fs).length) f,
        hfc ▸ chosen_file_mem f fs (pick c), ?_⟩
      rw [start_simulation,
        uploadsFor_loop filesOf pick outcome c (sortCategories listing)
          hsortnd (hperm.mem_iff.mpr hc),
        uploadsFor_runCategory_self filesOf pick outcome c f fs hfc]

/-- C8 witness: the traversal contract on a two-category dataset listed in
reverse order, one file per category. -/
theorem simulator_traversal_witness :
    visitedCategories (start_simulation ["b", "a"] oneFileOf pickFirst
        outcomeOk) = sortCategories ["b", "a"] ∧
    List.Pairwise (fun a b => pyStrLe a b = true)
      (visitedCategories (start_simulation ["b", "a"] oneFileOf pickFirst
        outcomeOk)) ∧
    (∀ c ∈ ["b", "a"],
      (visitedCategories (start_simulation ["b", "a"] oneFileOf pickFirst
        outcomeOk)).count c = 1) ∧
    (∀ c ∈ ["b", "a"], oneFileOf c = [] →
      SimEvent.skip c ∈ start_simulation ["b", "a"] oneFileOf pickFirst
        outcomeOk ∧
      uploadsFor c (start_simulation ["b", "a"] oneFileOf pickFirst
        outcomeOk) = []) ∧
    (∀ c ∈ ["b", "a"], oneFileOf c ≠ [] →
      ∃ f, f ∈ oneFileOf c ∧
        uploadsFor c (start_simulation ["b", "a"] oneFileOf pickFirst
          outcomeOk) = [f]) :=
  simulator_traversal ["b", "a"] oneFileOf pickFirst outcomeOk (by decide)

/-- C9 counterexample: a run over a single empty category prints only the
skip diagnostic; in particular it contains no 2-second delay, so a skipped
category does not wait before proceeding. -/
theorem skip_no_delay_counterexample :
    start_simulation ["battery"] emptyFilesOf pickFirst outcomeOk =
      [SimEvent.skip "battery"] ∧
    SimEvent.sleep 2 ∉
      start_simulation ["battery"] emptyFilesOf pickFirst outcomeOk := by
  refine ⟨rfl, ?_⟩
  decide

/-- C9 amended: after every non-empty category the simulator sleeps 2
seconds before moving on — whether the cycle got a 200, an HTTP error, or
an exception — while a category skipped as empty emits no delay at all and
proceeds immediately. -/
theorem delay_after_cycle (filesOf : String → List String)
    (pick : String → Nat) (outcome : String → String → CycleOutcome)
    (c : String) :
    (filesOf c ≠ [] →
      (runCategory filesOf pick outcome c).getLast? =
        some (SimEvent.sleep 2)) ∧
    (filesOf c = [] →
      runCategory filesOf pick outcome c = [SimEvent.skip c] ∧
      SimEvent.sleep 2 ∉ runCategory filesOf pick outcome c) := by
  have hlast : ∀ file o, (cycleEvents c file o).getLast? =
      some (SimEvent.sleep 2) := by
    intro file o
    cases o with
    | httpOk cls command =>
      unfold cycleEvents
      by_cases hin : c.data <:+: cls.data <;> simp [hin]
    | httpErr text => rfl
    | raised msg => rfl
  constructor
  · intro hne
    unfold runCategory
    cases hfc : filesOf c with
    | nil => exact absurd hfc hne
    | cons f fs => exact hlast _ _
  · intro hemp
    have hrun : runCategory filesOf pick outcome c = [SimEvent.skip c] := by
      unfold runCategory
      rw [hemp]
    rw [hrun]
    exact ⟨rfl, by simp⟩

/-- C9 amended witness: the delay behavior on one non-empty and one empty
category. -/
theorem delay_after_cycle_witness :
    (runCategory oneFileOf pickFirst outcomeOk "a").getLast? =
      some (SimEvent.sleep 2) ∧
    runCategory emptyFilesOf pickFirst outcomeOk "a" = [SimEvent.skip "a"] :=
  ⟨(delay_after_cycle oneFileOf pickFirst outcomeOk "a").1 (by decide),
   ((delay_after_cycle emptyFilesOf pickFirst outcomeOk "a").2 rfl).1⟩

/-- C10: evaluating the handler module's top level raises NameError on the
name os (at the PROJECT_ID assignment, which sits outside the try/except),
so the module never finishes loading and the handler is never registered:
as written it is unreachable in every deployment. -/
theorem module_init_name_error :
    runStmts [] mainModule = .error (.nameError "os") ∧
    handlerRegistered = false := by
  constructor
  · rfl
  · rfl

end SmartDustbin
